import Mathlib

/-!
Shallow embedding of the commerce transaction core of the backend:
cart pricing recomputation (src/models/Cart.js), the stock ledger
(src/models/Product.js: checkStock / updateStock), order lifecycle
predicates (src/models/Order.js), and the checkout totals computation
(src/controllers/order.controller.js: createOrder).

Money amounts are embedded as exact rationals (the JS source uses IEEE
doubles; all claims are about the algebraic structure of the
computations, stated here over ℚ). JS quantities are embedded as ℤ.
-/

namespace Shop

/-- Variant selection on a cart line (name / value / priceAdjustment),
from cartItemSchema in src/models/Cart.js. JSON.stringify equality on
variants in the source is embedded as structural equality. -/
structure Variant where
  name : String
  value : String
  priceAdjustment : ℚ
deriving DecidableEq, Repr

/-- Coupon kind enum from cartSchema.coupon.type: percentage | fixed. -/
inductive CouponType where
  | percentage
  | fixed
deriving DecidableEq, Repr

/-- Applied coupon on a cart (code, discount, type), from cartSchema. -/
structure Coupon where
  code : String
  discount : ℚ
  type : CouponType
deriving DecidableEq, Repr

/-- One cart line: product reference (ObjectId embedded as ℕ), quantity,
optional variant. From cartItemSchema in src/models/Cart.js. -/
structure CartItem where
  product : ℕ
  quantity : ℤ
  variant : Option Variant
deriving DecidableEq, Repr

/-- Inventory subdocument of a product: trackQuantity, quantity,
lowStockThreshold, allowBackorders. From src/models/Product.js. -/
structure Inventory where
  trackQuantity : Bool
  quantity : ℤ
  lowStockThreshold : ℤ
  allowBackorders : Bool
deriving DecidableEq, Repr

/-- The populated product fields the cart/checkout flows read:
name, price and the inventory subdocument. -/
structure ProductDoc where
  name : String
  price : ℚ
  inventory : Inventory
deriving Repr

/-- Catalog: resolves a product reference to its document, `none` when
the reference cannot be populated (deleted product). -/
def Catalog := ℕ → Option ProductDoc

/-- Result of Product.checkStock: availability flag plus, on shortfall,
the current available quantity. From src/models/Product.js. -/
structure StockCheck where
  available : Bool
  availableQuantity : Option ℤ
deriving DecidableEq, Repr

/-- Product.checkStock (src/models/Product.js): stock-tracking disabled
or backorders allowed means unconditionally available; otherwise
available iff quantity >= requested. -/
def checkStock (inv : Inventory) (quantity : ℤ) : StockCheck :=
  if !inv.trackQuantity then ⟨true, none⟩
  else if inv.allowBackorders then ⟨true, none⟩
  else if inv.quantity ≥ quantity then ⟨true, none⟩
  else ⟨false, some inv.quantity⟩

/-- Product.updateStock (src/models/Product.js). Returns the updated
inventory together with whether the lowStock event was emitted.
`decrease` floors the result at 0; `increase` adds unconditionally;
when trackQuantity is false the method returns immediately (no change,
no emission). The emission check compares the post-operation quantity
against lowStockThreshold and runs for every operation direction. -/
def updateStock (inv : Inventory) (quantity : ℤ) (operation : String) :
    Inventory × Bool :=
  if !inv.trackQuantity then (inv, false)
  else
    let inv' :=
      if operation = "decrease" then
        { inv with quantity := max 0 (inv.quantity - quantity) }
      else if operation = "increase" then
        { inv with quantity := inv.quantity + quantity }
      else inv
    (inv', decide (inv'.quantity ≤ inv'.lowStockThreshold))

/-- Cart document: lines, derived totals, optional coupon, shipping
method. From cartSchema in src/models/Cart.js. -/
structure Cart where
  items : List CartItem
  subtotal : ℚ
  tax : ℚ
  shipping : ℚ
  discount : ℚ
  total : ℚ
  coupon : Option Coupon
  shippingMethod : String
deriving Repr

/-- The fixed shipping-rate table shared by Cart.calculateTotals and
createOrder: standard=5.99, express=12.99, overnight=24.99. -/
def shippingRates : String → Option ℚ
  | "standard" => some 5.99
  | "express" => some 12.99
  | "overnight" => some 24.99
  | _ => none

/-- The variant price adjustment of a line: item.variant?.priceAdjustment || 0. -/
def variantAdjustment : Option Variant → ℚ
  | some v => v.priceAdjustment
  | none => 0

/-- Contribution of one cart line to the subtotal: (price + adjustment)
times quantity when the product reference resolves, 0 when it does not
(the `if (item.product)` guard in calculateTotals). -/
def itemAmount (catalog : Catalog) (it : CartItem) : ℚ :=
  match catalog it.product with
  | none => 0
  | some pd => (pd.price + variantAdjustment it.variant) * (it.quantity : ℚ)

/-- The coupon branch shared verbatim by Cart.calculateTotals and
createOrder: percentage yields subtotal * discount / 100, fixed yields
the raw discount, no coupon yields 0. -/
def computeDiscount (subtotal : ℚ) : Option Coupon → ℚ
  | some cp =>
      if cp.type = CouponType.percentage then subtotal * cp.discount / 100
      else cp.discount
  | none => 0

/-- Cart.calculateTotals (src/models/Cart.js): recomputes subtotal,
discount, shipping (table lookup with `|| 0` fallback), tax at
(subtotal - discount) * 0.08, and total = subtotal - discount + tax +
shipping. Items, coupon and shipping method are untouched. -/
def Cart.calculateTotals (catalog : Catalog) (c : Cart) : Cart :=
  let subtotal := c.items.foldl (fun s it => s + itemAmount catalog it) 0
  let discount := computeDiscount subtotal c.coupon
  let shipping := (shippingRates c.shippingMethod).getD 0
  let tax := (subtotal - discount) * 0.08
  { c with
    subtotal := subtotal
    discount := discount
    shipping := shipping
    tax := tax
    total := subtotal - discount + tax + shipping }

/-- Line-identity test used by addItem / removeItem / updateQuantity:
product ids equal and variants equal under JSON.stringify (structural)
equality. -/
def sameIdentity (productId : ℕ) (variant : Option Variant)
    (it : CartItem) : Bool :=
  it.product = productId ∧ it.variant = variant

/-- Bump the quantity of the first line matching the identity by `qty`
(the source mutates the single item returned by Array.prototype.find). -/
def bumpFirst (productId : ℕ) (qty : ℤ) (variant : Option Variant) :
    List CartItem → List CartItem
  | [] => []
  | it :: rest =>
      if sameIdentity productId variant it then
        { it with quantity := it.quantity + qty } :: rest
      else it :: bumpFirst productId qty variant rest

/-- Set the quantity of the first line matching the identity to `qty`. -/
def setFirst (productId : ℕ) (qty : ℤ) (variant : Option Variant) :
    List CartItem → List CartItem
  | [] => []
  | it :: rest =>
      if sameIdentity productId variant it then
        { it with quantity := qty } :: rest
      else it :: setFirst productId qty variant rest

/-- Cart.addItem (src/models/Cart.js) followed by the pre-save hook's
recompute: merge into the first existing line with the same
(product, variant) identity, else append a new line; then save, whose
pre-save middleware recomputes totals because items changed. -/
def Cart.addItem (catalog : Catalog) (c : Cart) (productId : ℕ)
    (quantity : ℤ) (variant : Option Variant) : Cart :=
  let items' :=
    if c.items.any (sameIdentity productId variant) then
      bumpFirst productId quantity variant c.items
    else
      c.items ++ [{ product := productId, quantity := quantity,
                    variant := variant }]
  Cart.calculateTotals catalog { c with items := items' }

/-- Cart.removeItem (src/models/Cart.js) followed by the pre-save
recompute: drop every line matching the identity. -/
def Cart.removeItem (catalog : Catalog) (c : Cart) (productId : ℕ)
    (variant : Option Variant) : Cart :=
  let items' := c.items.filter (fun it => !sameIdentity productId variant it)
  Cart.calculateTotals catalog { c with items := items' }

/-- Cart.updateQuantity (src/models/Cart.js): when a matching line
exists, qty ≤ 0 delegates to removeItem, otherwise the quantity is set
and the save hook recomputes; when no line matches, the cart is
returned unchanged (no save, no recompute). -/
def Cart.updateQuantity (catalog : Catalog) (c : Cart) (productId : ℕ)
    (quantity : ℤ) (variant : Option Variant) : Cart :=
  if c.items.any (sameIdentity productId variant) then
    if quantity ≤ 0 then Cart.removeItem catalog c productId variant
    else
      Cart.calculateTotals catalog
        { c with items := setFirst productId quantity variant c.items }
  else c

/-- Cart.clear (src/models/Cart.js): hand-sets items := [], coupon :=
undefined and all five totals to 0, then saves; the pre-save middleware
sees items/coupon modified and recomputes totals over the now-empty
cart (re-deriving shipping from the unchanged shipping method). -/
def Cart.clear (catalog : Catalog) (c : Cart) : Cart :=
  Cart.calculateTotals catalog
    { c with items := [], coupon := none, subtotal := 0, tax := 0,
             shipping := 0, discount := 0, total := 0 }

/-- Cart.applyCoupon (src/models/Cart.js) followed by the pre-save
recompute: replaces the coupon slot. -/
def Cart.applyCoupon (catalog : Catalog) (c : Cart) (code : String)
    (discount : ℚ) (type : CouponType) : Cart :=
  Cart.calculateTotals catalog
    { c with coupon := some { code := code, discount := discount,
                              type := type } }

/-- Cart.removeCoupon (src/models/Cart.js) followed by the pre-save
recompute: clears the coupon slot. -/
def Cart.removeCoupon (catalog : Catalog) (c : Cart) : Cart :=
  Cart.calculateTotals catalog { c with coupon := none }

/-- Shipping-method change: the field is assigned and the document
saved; the pre-save middleware in src/models/Cart.js sees
shippingMethod modified and recomputes totals. -/
def Cart.setShippingMethod (catalog : Catalog) (c : Cart)
    (method : String) : Cart :=
  Cart.calculateTotals catalog { c with shippingMethod := method }

/-- Cart.validateStock (src/models/Cart.js): collects a stock issue for
every line whose product resolves, tracks quantity, and fails
checkStock; valid iff no issues. -/
def Cart.stockIssues (catalog : Catalog) (c : Cart) : List ℕ :=
  c.items.filterMap (fun it =>
    match catalog it.product with
    | none => none
    | some pd =>
        if pd.inventory.trackQuantity then
          if (checkStock pd.inventory it.quantity).available then none
          else some it.product
        else none)

/-- Validity flag of Cart.validateStock: isValid iff issues is empty. -/
def Cart.validateStock (catalog : Catalog) (c : Cart) : Bool :=
  Cart.stockIssues catalog c = []

/-- Totals fields of an order as computed by createOrder in
src/controllers/order.controller.js. -/
structure OrderTotals where
  subtotal : ℚ
  tax : ℚ
  shippingCost : ℚ
  discount : ℚ
  total : ℚ
deriving DecidableEq, Repr

/-- Outcome of the createOrder controller, restricted to the decisions
the source makes before responding: empty-cart rejection, stock
rejection, the runtime failure of dereferencing an unpopulated product
inside the orderItems map, or a created order's totals. -/
inductive CheckoutResult where
  | emptyCart
  | insufficientStock
  | unresolvedProduct
  | created (t : OrderTotals)
deriving DecidableEq, Repr

/-- Totals computed inline by createOrder
(src/controllers/order.controller.js): subtotal sums
(price + adjustment) * quantity over the snapshotted lines; tax =
subtotal * 0.08; shippingCost from the rate table keyed by the request
override `|| cart.shippingMethod` with fallback `|| 5.99`; discount
from the cart's coupon on the fresh subtotal;
total = subtotal + tax + shippingCost - discount. -/
def checkoutTotals (catalog : Catalog) (c : Cart)
    (shippingMethodOverride : Option String) : OrderTotals :=
  let subtotal := c.items.foldl (fun s it => s + itemAmount catalog it) 0
  let tax := subtotal * 0.08
  let shippingCost :=
    (shippingRates (shippingMethodOverride.getD c.shippingMethod)).getD 5.99
  let discount := computeDiscount subtotal c.coupon
  { subtotal := subtotal, tax := tax, shippingCost := shippingCost,
    discount := discount,
    total := subtotal + tax + shippingCost - discount }

/-- createOrder decision sequence: empty-cart and stock rejections
happen before any totals computation, then the snapshot requires every
product reference to resolve, then the totals above are attached to
the created order. -/
def createOrder (catalog : Catalog) (c : Cart)
    (shippingMethodOverride : Option String) : CheckoutResult :=
  if c.items = [] then CheckoutResult.emptyCart
  else if ¬ Cart.validateStock catalog c then CheckoutResult.insufficientStock
  else if c.items.any (fun it => (catalog it.product).isNone) then
    CheckoutResult.unresolvedProduct
  else
    CheckoutResult.created (checkoutTotals catalog c shippingMethodOverride)

/-- Order status enum from orderSchema in src/models/Order.js. -/
inductive OrderStatus where
  | pending
  | confirmed
  | processing
  | shipped
  | delivered
  | cancelled
  | returned
deriving DecidableEq, Repr

/-- Order.canBeReturned (src/models/Order.js): false unless status is
delivered; otherwise true iff
Math.floor((now - deliveredAt) / 86400000) <= 30. Timestamps are
epoch milliseconds; JS Math.floor of the real quotient is integer
floor division. -/
def Order.canBeReturned (status : OrderStatus) (now deliveredAt : ℤ) :
    Bool :=
  if status ≠ OrderStatus.delivered then false
  else Int.fdiv (now - deliveredAt) 86400000 ≤ 30

/-- Order.canBeCancelled (src/models/Order.js): status is pending or
confirmed. -/
def Order.canBeCancelled (status : OrderStatus) : Bool :=
  status = OrderStatus.pending ∨ status = OrderStatus.confirmed

/-- Phase of one in-flight checkout in the two-checkout race model:
not yet validated, past stock validation, completed with an order, or
rejected with InsufficientStock. -/
inductive Phase where
  | start
  | validated
  | ordered
  | rejected
deriving DecidableEq, Repr

/-- Shared state of two concurrent checkouts of the same product: the
product's tracked quantity and each flow's phase. The product tracks
quantity and disallows backorders (Scenario C). -/
structure RaceState where
  quantity : ℤ
  phase0 : Phase
  phase1 : Phase
deriving DecidableEq, Repr

/-- Read or write the phase of flow i. -/
def RaceState.phase (s : RaceState) (i : Fin 2) : Phase :=
  if i = 0 then s.phase0 else s.phase1

/-- Replace the phase of flow i. -/
def RaceState.setPhase (s : RaceState) (i : Fin 2) (p : Phase) :
    RaceState :=
  if i = 0 then { s with phase0 := p } else { s with phase1 := p }

/-- One persistence-boundary-granular step of flow i in createOrder
(src/controllers/order.controller.js) for a one-line cart requesting
`requested` units: first the validateStock read (checkStock with
trackQuantity true, allowBackorders false: available iff quantity >=
requested), then — only for a flow that passed validation — the order
creation plus updateStock decrease, which floors at 0. Steps of a
finished flow change nothing. -/
def raceStep (requested : ℤ) (s : RaceState) (i : Fin 2) : RaceState :=
  match s.phase i with
  | Phase.start =>
      if s.quantity ≥ requested then s.setPhase i Phase.validated
      else s.setPhase i Phase.rejected
  | Phase.validated =>
      { s.setPhase i Phase.ordered with
        quantity := max 0 (s.quantity - requested) }
  | _ => s

/-- Run a schedule (a list of flow choices) from a state. Each entry
interleaves one step of the chosen flow, as permitted by the await
points at the persistence boundaries of createOrder. -/
def raceRun (requested : ℤ) (schedule : List (Fin 2)) (s : RaceState) :
    RaceState :=
  schedule.foldl (raceStep requested) s

/-- Initial state of Scenario C: one unit in stock, both checkouts
about to validate. -/
def raceInit : RaceState :=
  { quantity := 1, phase0 := Phase.start, phase1 := Phase.start }

/-- The documented cart invariant:
total == subtotal - discount + tax + shipping. -/
def Cart.totalsInvariant (c : Cart) : Prop :=
  c.total = c.subtotal - c.discount + c.tax + c.shipping

instance (c : Cart) : Decidable (Cart.totalsInvariant c) := by
  unfold Cart.totalsInvariant; infer_instance

/-- Fixture: a tracked inventory holding one unit, threshold 0, no
backorders. -/
def invTracked : Inventory :=
  { trackQuantity := true, quantity := 1, lowStockThreshold := 0,
    allowBackorders := false }

/-- Fixture: an untracked inventory (stock checks always pass,
updateStock is a no-op). -/
def invUntracked : Inventory :=
  { trackQuantity := false, quantity := 5, lowStockThreshold := 0,
    allowBackorders := false }

/-- Fixture: a catalog resolving every product id to a 100.00-priced
product whose stock is untracked. -/
def catalogFixture : Catalog :=
  fun _ => some { name := "widget", price := 100,
                  inventory := invUntracked }

/-- Fixture: a one-line cart (product 1, quantity 1, no variant),
standard shipping, no coupon, totals not yet recomputed. -/
def cartOneLine : Cart :=
  { items := [{ product := 1, quantity := 1, variant := none }],
    subtotal := 0, tax := 0, shipping := 0, discount := 0, total := 0,
    coupon := none, shippingMethod := "standard" }

/-- Fixture: the one-line cart with a 10% coupon applied. -/
def cartWithCoupon : Cart :=
  { cartOneLine with
    coupon := some { code := "TEN", discount := 10,
                     type := CouponType.percentage } }

/-- Fixture: an empty cart whose shipping method is not in the rate
table. -/
def cartUnknownMethod : Cart :=
  { cartOneLine with items := [], shippingMethod := "pigeonpost" }

/-- Fixture: an empty cart with standard shipping and zeroed totals. -/
def cartEmpty : Cart :=
  { cartOneLine with items := [] }

/-! Helper lemmas about the recompute. -/

theorem calculateTotals_items (catalog : Catalog) (c : Cart) :
    (Cart.calculateTotals catalog c).items = c.items := rfl

theorem calculateTotals_tax_eq (catalog : Catalog) (c : Cart) :
    (Cart.calculateTotals catalog c).tax
      = ((Cart.calculateTotals catalog c).subtotal
          - (Cart.calculateTotals catalog c).discount) * 0.08 := rfl

theorem calculateTotals_total_eq (catalog : Catalog) (c : Cart) :
    Cart.totalsInvariant (Cart.calculateTotals catalog c) := rfl

/-- C5 counterexample: with one unit in stock, a clamped decrease by 2
followed by an increase by 2 yields quantity 2, not the original 1, so
the round-trip law fails for a delta exceeding the starting quantity. -/
theorem updateStock_roundtrip_fails_when_clamped :
    (updateStock (updateStock invTracked 2 "decrease").1 2
        "increase").1.quantity = 2 ∧
    invTracked.quantity = 1 ∧ (2 : ℤ) ≠ 1 := by decide

/-- C5 (amended): for a tracked inventory, a decrease never drives the
quantity below zero for any delta, and an increase immediately after an
equal decrease restores the original quantity provided the delta does
not exceed the starting quantity (so the decrease was not clamped). -/
theorem updateStock_decrease_nonneg_and_roundtrip (inv : Inventory)
    (q q' : ℤ) (htrack : inv.trackQuantity = true)
    (hq : q ≤ inv.quantity) :
    0 ≤ (updateStock inv q' "decrease").1.quantity ∧
    (updateStock (updateStock inv q "decrease").1 q
        "increase").1.quantity = inv.quantity := by
  simp [updateStock, htrack]
  omega

theorem updateStock_decrease_nonneg_and_roundtrip_witness :
    0 ≤ (updateStock invTracked 1 "decrease").1.quantity ∧
    (updateStock (updateStock invTracked 1 "decrease").1 1
        "increase").1.quantity = invTracked.quantity :=
  updateStock_decrease_nonneg_and_roundtrip invTracked 1 1 rfl
    (by decide)

/-- C6 counterexample: the recompute maps a shipping method outside the
rate table to 0, not to the standard rate 5.99. -/
theorem calculateTotals_unknown_method_shipping_zero :
    (Cart.calculateTotals catalogFixture cartUnknownMethod).shipping = 0 ∧
    (Cart.calculateTotals catalogFixture cartUnknownMethod).shipping
      ≠ 5.99 := by
  constructor
  · rfl
  · show ((shippingRates "pigeonpost").getD 0 : ℚ) ≠ 5.99
    have h : shippingRates "pigeonpost" = none := rfl
    rw [h]
    norm_num

/-- C6 (amended): the recompute sets shipping to the fixed-rate table
value of the cart's shipping method (standard=5.99, express=12.99,
overnight=24.99), and any method not in the table yields 0 — the `|| 0`
fallback — not the standard rate. -/
theorem calculateTotals_shipping_rate_table (catalog : Catalog)
    (c : Cart) :
    (c.shippingMethod = "standard" →
      (Cart.calculateTotals catalog c).shipping = 5.99) ∧
    (c.shippingMethod = "express" →
      (Cart.calculateTotals catalog c).shipping = 12.99) ∧
    (c.shippingMethod = "overnight" →
      (Cart.calculateTotals catalog c).shipping = 24.99) ∧
    (shippingRates c.shippingMethod = none →
      (Cart.calculateTotals catalog c).shipping = 0) := by
  refine ⟨?_, ?_, ?_, ?_⟩ <;> intro h <;>
    · show (shippingRates c.shippingMethod).getD 0 = _
      rw [h]
      rfl

theorem calculateTotals_shipping_rate_table_witness :
    (Cart.calculateTotals catalogFixture cartEmpty).shipping = 5.99 ∧
    (Cart.calculateTotals catalogFixture cartUnknownMethod).shipping
      = 0 :=
  ⟨(calculateTotals_shipping_rate_table catalogFixture cartEmpty).1 rfl,
   (calculateTotals_shipping_rate_table catalogFixture
      cartUnknownMethod).2.2.2 rfl⟩

/-- C7: evaluating clear() on a populated couponed cart: the method
zeroes every total and empties lines and coupon, but the save hook's
recompute immediately re-derives shipping from the still-standard
shipping method, leaving shipping = 5.99 and total = 5.99 instead of
zero. -/
theorem clear_leaves_shipping_at_rate :
    (Cart.clear catalogFixture cartWithCoupon).items = [] ∧
    (Cart.clear catalogFixture cartWithCoupon).coupon = none ∧
    (Cart.clear catalogFixture cartWithCoupon).subtotal = 0 ∧
    (Cart.clear catalogFixture cartWithCoupon).discount = 0 ∧
    (Cart.clear catalogFixture cartWithCoupon).tax = 0 ∧
    (Cart.clear catalogFixture cartWithCoupon).shipping = 5.99 ∧
    (Cart.clear catalogFixture cartWithCoupon).total = 5.99 := by
  simp [Cart.clear, Cart.calculateTotals, computeDiscount, shippingRates,
    cartWithCoupon, cartOneLine]

/-- C8 counterexample: a fixed coupon with negative discount magnitude
passes through computeDiscount unchanged, producing a negative
discount amount — no zero floor exists. -/
theorem computeDiscount_fixed_negative :
    computeDiscount 100 (some { code := "NEG", discount := -5,
                                type := CouponType.fixed })
        = -5 ∧ ((-5 : ℚ) < 0) := by
  exact ⟨rfl, by norm_num⟩

/-- C8 (amended): for every subtotal, a fixed-kind coupon's discount is
returned entirely uncapped — no zero minimum and no upper cap — so it
is negative exactly when coupon.discount is, and may exceed the
subtotal; a percentage-kind coupon yields subtotal * discount / 100. -/
theorem computeDiscount_fixed_uncapped (subtotal d : ℚ) (code : String) :
    computeDiscount subtotal
      (some { code := code, discount := d,
              type := CouponType.fixed }) = d ∧
    computeDiscount subtotal
      (some { code := code, discount := d,
              type := CouponType.percentage })
      = subtotal * d / 100 :=
  ⟨rfl, rfl⟩

/-- Helper: floor division by the day length compares against 30
exactly below the 31-day mark. -/
theorem fdiv_day_le_30_iff (e : ℤ) :
    Int.fdiv e 86400000 ≤ 30 ↔ e < 31 * 86400000 := by
  rw [Int.fdiv_eq_ediv _ (by norm_num)]
  omega

/-- C9 counterexample: one hour past the 30-day boundary after
delivery, canBeReturned still returns true, because
Math.floor(days) <= 30 admits every instant strictly below 31 days. -/
theorem canBeReturned_true_after_30_day_boundary :
    Order.canBeReturned OrderStatus.delivered
      (30 * 86400000 + 3600000) 0 = true ∧
    (30 * 86400000 : ℤ) < 30 * 86400000 + 3600000 := by
  exact ⟨by decide, by norm_num⟩

/-- C9 (amended): canBeReturned is true iff the order is delivered and
strictly less than 31 days (in floored whole days, at most 30) have
elapsed since deliveredAt; it is false for every non-delivered status,
but becomes false only once the 31st day is reached, not the instant
the 30-day boundary is crossed. -/
theorem canBeReturned_iff_delivered_within_31_days
    (status : OrderStatus) (now deliveredAt : ℤ) :
    Order.canBeReturned status now deliveredAt = true ↔
      (status = OrderStatus.delivered ∧
        now - deliveredAt < 31 * 86400000) := by
  unfold Order.canBeReturned
  by_cases h : status = OrderStatus.delivered
  · simp [h, fdiv_day_le_30_iff]
  · simp [h]

/-- C10: for a tracked inventory, updateStock emits the low-stock
signal exactly when the post-operation quantity is at most
lowStockThreshold, in both the decrease and the increase direction;
for an untracked inventory every operation changes nothing and emits
nothing. -/
theorem updateStock_lowStock_emission_iff (inv : Inventory) (q : ℤ) :
    (inv.trackQuantity = true →
      (((updateStock inv q "decrease").2 = true ↔
         (updateStock inv q "decrease").1.quantity
           ≤ inv.lowStockThreshold) ∧
       ((updateStock inv q "increase").2 = true ↔
         (updateStock inv q "increase").1.quantity
           ≤ inv.lowStockThreshold))) ∧
    (inv.trackQuantity = false →
      ∀ operation : String, updateStock inv q operation
        = (inv, false)) := by
  constructor
  · intro h
    constructor <;> simp [updateStock, h]
  · intro h operation
    simp [updateStock, h]

/-- C3: every cart mutation — addItem, updateQuantity, removeItem,
applyCoupon, removeCoupon, shipping-method change, clear — preserves
the invariant total == subtotal - discount + tax + shipping: each
mutation that saves re-derives the totals through calculateTotals, and
the one path that skips the save (updateQuantity on a missing line)
leaves the cart untouched. -/
theorem cart_mutations_preserve_total_invariant (catalog : Catalog)
    (c : Cart) (productId : ℕ) (qty : ℤ) (variant : Option Variant)
    (code : String) (d : ℚ) (ty : CouponType) (method : String)
    (h : Cart.totalsInvariant c) :
    Cart.totalsInvariant (Cart.addItem catalog c productId qty variant) ∧
    Cart.totalsInvariant
      (Cart.updateQuantity catalog c productId qty variant) ∧
    Cart.totalsInvariant (Cart.removeItem catalog c productId variant) ∧
    Cart.totalsInvariant (Cart.applyCoupon catalog c code d ty) ∧
    Cart.totalsInvariant (Cart.removeCoupon catalog c) ∧
    Cart.totalsInvariant (Cart.setShippingMethod catalog c method) ∧
    Cart.totalsInvariant (Cart.clear catalog c) := by
  refine ⟨calculateTotals_total_eq _ _, ?_, calculateTotals_total_eq _ _,
    calculateTotals_total_eq _ _, calculateTotals_total_eq _ _,
    calculateTotals_total_eq _ _, calculateTotals_total_eq _ _⟩
  unfold Cart.updateQuantity
  split
  · split
    · exact calculateTotals_total_eq _ _
    · exact calculateTotals_total_eq _ _
  · exact h

theorem cart_mutations_preserve_total_invariant_witness :
    Cart.totalsInvariant cartEmpty ∧
    Cart.totalsInvariant
      (Cart.addItem catalogFixture cartEmpty 7 2 none) :=
  ⟨by simp [Cart.totalsInvariant, cartEmpty, cartOneLine],
   (cart_mutations_preserve_total_invariant catalogFixture cartEmpty
      7 2 none "C" 5 CouponType.fixed "express"
      (by simp [Cart.totalsInvariant, cartEmpty, cartOneLine])).1⟩

/-! Helper lemmas for addItem line identity. -/

theorem sameIdentity_mk (productId : ℕ) (q : ℤ) (v : Option Variant) :
    sameIdentity productId v
      { product := productId, quantity := q, variant := v } = true := by
  simp [sameIdentity]

theorem bumpFirst_append_of_all_fail (productId : ℕ) (q : ℤ)
    (v : Option Variant) (l l₂ : List CartItem)
    (h : l.any (sameIdentity productId v) = false) :
    bumpFirst productId q v (l ++ l₂)
      = l ++ bumpFirst productId q v l₂ := by
  induction l with
  | nil => rfl
  | cons it rest ih =>
      rw [List.any_cons, Bool.or_eq_false_iff] at h
      simp [bumpFirst, h.1, ih h.2]

theorem filter_identity_append_of_all_fail (productId : ℕ)
    (v : Option Variant) (l l₂ : List CartItem)
    (h : l.any (sameIdentity productId v) = false) :
    (l ++ l₂).filter (sameIdentity productId v)
      = l₂.filter (sameIdentity productId v) := by
  induction l with
  | nil => rfl
  | cons it rest ih =>
      rw [List.any_cons, Bool.or_eq_false_iff] at h
      simp [List.filter_cons, h.1, ih h.2]

/-- C4: on a cart with no line of the given (productId, variant)
identity, the first addItem appends exactly one new line with quantity
q1, the second addItem merges into it — the final line list is the
original lines plus a single line of quantity q1 + q2, never two — so
filtering by the identity yields exactly that one line and the line
count grows by exactly one across both calls. -/
theorem addItem_merges_same_identity (catalog : Catalog) (c : Cart)
    (productId : ℕ) (q1 q2 : ℤ) (v : Option Variant)
    (h : c.items.any (sameIdentity productId v) = false) :
    (Cart.addItem catalog c productId q1 v).items
      = c.items
          ++ [{ product := productId, quantity := q1, variant := v }] ∧
    (Cart.addItem catalog (Cart.addItem catalog c productId q1 v)
        productId q2 v).items
      = c.items
          ++ [{ product := productId, quantity := q1 + q2,
                variant := v }] ∧
    ((Cart.addItem catalog (Cart.addItem catalog c productId q1 v)
        productId q2 v).items.filter (sameIdentity productId v))
      = [{ product := productId, quantity := q1 + q2, variant := v }] ∧
    (Cart.addItem catalog (Cart.addItem catalog c productId q1 v)
        productId q2 v).items.length = c.items.length + 1 := by
  have h1 : (Cart.addItem catalog c productId q1 v).items
      = c.items
          ++ [{ product := productId, quantity := q1, variant := v }] := by
    rw [Cart.addItem, calculateTotals_items]
    simp [h]
  have hany : ((Cart.addItem catalog c productId q1 v).items).any
      (sameIdentity productId v) = true := by
    rw [h1, List.any_append]
    simp [sameIdentity_mk]
  have h2 : (Cart.addItem catalog (Cart.addItem catalog c productId q1 v)
      productId q2 v).items
      = c.items
          ++ [{ product := productId, quantity := q1 + q2,
                variant := v }] := by
    rw [Cart.addItem, calculateTotals_items, if_pos hany, h1,
      bumpFirst_append_of_all_fail productId q2 v _ _ h]
    simp [bumpFirst, sameIdentity_mk]
  refine ⟨h1, h2, ?_, ?_⟩
  · rw [h2, filter_identity_append_of_all_fail productId v _ _ h]
    simp [List.filter_cons, sameIdentity_mk]
  · rw [h2]
    simp

theorem addItem_merges_same_identity_witness :
    (Cart.addItem catalogFixture cartEmpty 7 2 none).items
      = cartEmpty.items
          ++ [{ product := 7, quantity := 2, variant := none }] ∧
    (Cart.addItem catalogFixture
        (Cart.addItem catalogFixture cartEmpty 7 2 none) 7 3 none).items
      = cartEmpty.items
          ++ [{ product := 7, quantity := 2 + 3, variant := none }] ∧
    ((Cart.addItem catalogFixture
        (Cart.addItem catalogFixture cartEmpty 7 2 none) 7 3
          none).items.filter (sameIdentity 7 none))
      = [{ product := 7, quantity := 2 + 3, variant := none }] ∧
    (Cart.addItem catalogFixture
        (Cart.addItem catalogFixture cartEmpty 7 2 none) 7 3
          none).items.length = cartEmpty.items.length + 1 :=
  addItem_merges_same_identity catalogFixture cartEmpty 7 2 3 none rfl

theorem updateStock_lowStock_emission_iff_witness :
    ((updateStock invTracked 1 "decrease").2 = true ↔
      (updateStock invTracked 1 "decrease").1.quantity
        ≤ invTracked.lowStockThreshold) ∧
    updateStock invUntracked 1 "increase" = (invUntracked, false) :=
  ⟨((updateStock_lowStock_emission_iff invTracked 1).1 rfl).1,
   (updateStock_lowStock_emission_iff invUntracked 1).2 rfl "increase"⟩

/-! Helper lemmas relating the two totals computations. -/

theorem calculateTotals_subtotal_eq (catalog : Catalog) (c : Cart) :
    (Cart.calculateTotals catalog c).subtotal
      = c.items.foldl (fun s it => s + itemAmount catalog it) 0 := rfl

theorem calculateTotals_discount_eq (catalog : Catalog) (c : Cart) :
    (Cart.calculateTotals catalog c).discount
      = computeDiscount (Cart.calculateTotals catalog c).subtotal
          c.coupon := rfl

theorem calculateTotals_shipping_def (catalog : Catalog) (c : Cart) :
    (Cart.calculateTotals catalog c).shipping
      = (shippingRates c.shippingMethod).getD 0 := rfl

theorem calculateTotals_coupon_eq (catalog : Catalog) (c : Cart) :
    (Cart.calculateTotals catalog c).coupon = c.coupon := rfl

theorem calculateTotals_shippingMethod_eq (catalog : Catalog)
    (c : Cart) :
    (Cart.calculateTotals catalog c).shippingMethod
      = c.shippingMethod := rfl

theorem checkoutTotals_subtotal_eq (catalog : Catalog) (c : Cart)
    (ov : Option String) :
    (checkoutTotals catalog c ov).subtotal
      = c.items.foldl (fun s it => s + itemAmount catalog it) 0 := rfl

theorem checkoutTotals_discount_eq (catalog : Catalog) (c : Cart)
    (ov : Option String) :
    (checkoutTotals catalog c ov).discount
      = computeDiscount (checkoutTotals catalog c ov).subtotal
          c.coupon := rfl

theorem checkoutTotals_shippingCost_eq (catalog : Catalog) (c : Cart)
    (ov : Option String) :
    (checkoutTotals catalog c ov).shippingCost
      = (shippingRates (ov.getD c.shippingMethod)).getD 5.99 := rfl

theorem checkoutTotals_tax_eq (catalog : Catalog) (c : Cart)
    (ov : Option String) :
    (checkoutTotals catalog c ov).tax
      = (checkoutTotals catalog c ov).subtotal * 0.08 := rfl

theorem checkoutTotals_total_eq (catalog : Catalog) (c : Cart)
    (ov : Option String) :
    (checkoutTotals catalog c ov).total
      = (checkoutTotals catalog c ov).subtotal
          + (checkoutTotals catalog c ov).tax
          + (checkoutTotals catalog c ov).shippingCost
          - (checkoutTotals catalog c ov).discount := rfl

theorem any_isNone_eq_false {l : List CartItem} {catalog : Catalog}
    (h : l.all (fun it => (catalog it.product).isSome) = true) :
    l.any (fun it => (catalog it.product).isNone) = false := by
  rw [List.all_eq_true] at h
  rw [List.any_eq_false]
  intro it hit
  have hs := h it hit
  cases hcat : catalog it.product with
  | none => rw [hcat] at hs; simp at hs
  | some pd => simp

/-- C1 counterexample: a recomputed cart holding one 100.00 product
with a 10% coupon has tax 7.2 = (100 - 10) * 0.08, but checkout — with
neither shipping method nor coupon overridden, the cart non-empty and
stock validation passing — recomputes tax as subtotal * 0.08 = 8, so
the checkout totals do not equal the cart's last-recomputed totals. -/
theorem createOrder_tax_differs_from_cart_tax :
    (Cart.calculateTotals catalogFixture cartWithCoupon).items ≠ [] ∧
    Cart.validateStock catalogFixture
      (Cart.calculateTotals catalogFixture cartWithCoupon) = true ∧
    (Cart.calculateTotals catalogFixture cartWithCoupon).tax = 7.2 ∧
    createOrder catalogFixture
        (Cart.calculateTotals catalogFixture cartWithCoupon) none
      = CheckoutResult.created
          (checkoutTotals catalogFixture
            (Cart.calculateTotals catalogFixture cartWithCoupon) none) ∧
    (checkoutTotals catalogFixture
        (Cart.calculateTotals catalogFixture cartWithCoupon) none).tax
      = 8 ∧
    (8 : ℚ) ≠ 7.2 := by
  refine ⟨by decide, by decide, ?_, ?_, ?_, by norm_num⟩
  · rw [calculateTotals_tax_eq, calculateTotals_subtotal_eq,
      calculateTotals_discount_eq, calculateTotals_subtotal_eq]
    norm_num [cartWithCoupon, cartOneLine, itemAmount, catalogFixture,
      variantAdjustment, computeDiscount]
  · have hres : (Cart.calculateTotals catalogFixture
        cartWithCoupon).items.all
          (fun it => (catalogFixture it.product).isSome) = true := by
      decide
    unfold createOrder
    rw [if_neg (by decide), if_neg (not_not_intro (by decide)),
      if_neg (by simp [any_isNone_eq_false hres])]
  · rw [checkoutTotals_tax_eq, checkoutTotals_subtotal_eq,
      calculateTotals_items]
    norm_num [cartWithCoupon, cartOneLine, itemAmount, catalogFixture,
      variantAdjustment]

/-- C1 (amended): for a non-empty recomputed cart that passes stock
validation, with every product reference resolvable, the shipping
method in the rate table and no checkout override, checkout succeeds
and its subtotal, discount and shipping cost equal the cart's; but
checkout's tax is subtotal * 0.08 — the cart's tax plus
discount * 0.08 — rather than (subtotal - discount) * 0.08, so the
full totals coincide exactly when the discount is zero (in particular
for every coupon-free cart), not for carts with a nonzero coupon
discount. -/
theorem createOrder_totals_refines_cart_totals (catalog : Catalog)
    (c₀ c : Cart) (hc : c = Cart.calculateTotals catalog c₀)
    (hne : c.items ≠ [])
    (hstock : Cart.validateStock catalog c = true)
    (hres : c.items.all (fun it => (catalog it.product).isSome) = true)
    (hrate : shippingRates c.shippingMethod ≠ none) :
    createOrder catalog c none
      = CheckoutResult.created (checkoutTotals catalog c none) ∧
    (checkoutTotals catalog c none).subtotal = c.subtotal ∧
    (checkoutTotals catalog c none).discount = c.discount ∧
    (checkoutTotals catalog c none).shippingCost = c.shipping ∧
    (checkoutTotals catalog c none).tax = c.tax + c.discount * 0.08 ∧
    (c.discount = 0 →
      (checkoutTotals catalog c none).tax = c.tax ∧
      (checkoutTotals catalog c none).total = c.total) := by
  have hrun : createOrder catalog c none
      = CheckoutResult.created (checkoutTotals catalog c none) := by
    unfold createOrder
    rw [if_neg hne, if_neg (not_not_intro hstock),
      if_neg (by simp [any_isNone_eq_false hres])]
  subst hc
  have hsub : (checkoutTotals catalog
        (Cart.calculateTotals catalog c₀) none).subtotal
      = (Cart.calculateTotals catalog c₀).subtotal := by
    rw [checkoutTotals_subtotal_eq, calculateTotals_subtotal_eq,
      calculateTotals_items]
  have hdisc : (checkoutTotals catalog
        (Cart.calculateTotals catalog c₀) none).discount
      = (Cart.calculateTotals catalog c₀).discount := by
    rw [checkoutTotals_discount_eq, calculateTotals_discount_eq, hsub,
      calculateTotals_coupon_eq]
  have hshipC : (checkoutTotals catalog
        (Cart.calculateTotals catalog c₀) none).shippingCost
      = (Cart.calculateTotals catalog c₀).shipping := by
    rw [calculateTotals_shippingMethod_eq] at hrate
    obtain ⟨r, hr⟩ := Option.ne_none_iff_exists'.mp hrate
    rw [checkoutTotals_shippingCost_eq, calculateTotals_shipping_def,
      Option.getD_none, calculateTotals_shippingMethod_eq, hr]
    rfl
  have htax : (checkoutTotals catalog
        (Cart.calculateTotals catalog c₀) none).tax
      = (Cart.calculateTotals catalog c₀).tax
          + (Cart.calculateTotals catalog c₀).discount * 0.08 := by
    rw [checkoutTotals_tax_eq, hsub, calculateTotals_tax_eq]
    ring
  refine ⟨hrun, hsub, hdisc, hshipC, htax, fun hd => ⟨?_, ?_⟩⟩
  · rw [htax, hd]
    ring
  · have htot : (Cart.calculateTotals catalog c₀).total
        = (Cart.calculateTotals catalog c₀).subtotal
            - (Cart.calculateTotals catalog c₀).discount
            + (Cart.calculateTotals catalog c₀).tax
            + (Cart.calculateTotals catalog c₀).shipping :=
      calculateTotals_total_eq catalog c₀
    rw [checkoutTotals_total_eq, hsub, hdisc, hshipC, htax, htot, hd]
    ring

theorem createOrder_totals_refines_cart_totals_witness :
    createOrder catalogFixture
        (Cart.calculateTotals catalogFixture cartOneLine) none
      = CheckoutResult.created
          (checkoutTotals catalogFixture
            (Cart.calculateTotals catalogFixture cartOneLine) none) ∧
    (checkoutTotals catalogFixture
        (Cart.calculateTotals catalogFixture cartOneLine) none).subtotal
      = (Cart.calculateTotals catalogFixture cartOneLine).subtotal ∧
    (checkoutTotals catalogFixture
        (Cart.calculateTotals catalogFixture cartOneLine) none).discount
      = (Cart.calculateTotals catalogFixture cartOneLine).discount ∧
    (checkoutTotals catalogFixture
        (Cart.calculateTotals catalogFixture cartOneLine)
          none).shippingCost
      = (Cart.calculateTotals catalogFixture cartOneLine).shipping ∧
    (checkoutTotals catalogFixture
        (Cart.calculateTotals catalogFixture cartOneLine) none).tax
      = (Cart.calculateTotals catalogFixture cartOneLine).tax
          + (Cart.calculateTotals catalogFixture cartOneLine).discount
              * 0.08 ∧
    ((Cart.calculateTotals catalogFixture cartOneLine).discount = 0 →
      (checkoutTotals catalogFixture
          (Cart.calculateTotals catalogFixture cartOneLine) none).tax
        = (Cart.calculateTotals catalogFixture cartOneLine).tax ∧
      (checkoutTotals catalogFixture
          (Cart.calculateTotals catalogFixture cartOneLine) none).total
        = (Cart.calculateTotals catalogFixture cartOneLine).total) := by
  apply createOrder_totals_refines_cart_totals catalogFixture cartOneLine
    (Cart.calculateTotals catalogFixture cartOneLine) rfl <;> decide

/-- C2 counterexample: with one unit in stock, the interleaving in
which both checkouts run stock validation before either applies its
decrement lets both checkouts complete with an order — neither receives
InsufficientStock — while the clamped decrement still leaves quantity
0; so it is not the case that exactly one of two concurrent checkouts
succeeds. -/
theorem race_both_checkouts_succeed :
    (raceRun 1 [0, 1, 0, 1] raceInit).phase0 = Phase.ordered ∧
    (raceRun 1 [0, 1, 0, 1] raceInit).phase1 = Phase.ordered ∧
    (raceRun 1 [0, 1, 0, 1] raceInit).phase0 ≠ Phase.rejected ∧
    (raceRun 1 [0, 1, 0, 1] raceInit).phase1 ≠ Phase.rejected ∧
    (raceRun 1 [0, 1, 0, 1] raceInit).quantity = 0 := by decide

/-- C2 (amended): for the last unit of a tracked, no-backorder
product, exactly one checkout succeeds and the other is rejected with
InsufficientStock only under serialized execution (either order); the
check-then-act sequence also admits the interleaving where both
checkouts validate before either decrements, in which both succeed;
in every one of these schedules the quantity ends at 0, i.e. it is
decremented by exactly one unit in total. -/
theorem race_serialized_vs_interleaved :
    ((raceRun 1 [0, 0, 1, 1] raceInit).phase0 = Phase.ordered ∧
     (raceRun 1 [0, 0, 1, 1] raceInit).phase1 = Phase.rejected ∧
     (raceRun 1 [0, 0, 1, 1] raceInit).quantity = 0) ∧
    ((raceRun 1 [1, 1, 0, 0] raceInit).phase1 = Phase.ordered ∧
     (raceRun 1 [1, 1, 0, 0] raceInit).phase0 = Phase.rejected ∧
     (raceRun 1 [1, 1, 0, 0] raceInit).quantity = 0) ∧
    ((raceRun 1 [0, 1, 0, 1] raceInit).phase0 = Phase.ordered ∧
     (raceRun 1 [0, 1, 0, 1] raceInit).phase1 = Phase.ordered ∧
     (raceRun 1 [0, 1, 0, 1] raceInit).quantity = 0) := by decide

end Shop
